import Mathlib

/-!
Verification of the Cloud Architect AI Flask application (`app.py`).

The development shallowly embeds the request/response core of the
application: the Python helper `_generate_with_retry` (demo mode, the
unconfigured-client check, and the bounded retry loop around the external
model call), `generate_architecture_recommendation`, and the `/generate`
endpoint (JSON validation followed by the mapping from generation outcomes
to HTTP responses).

External behaviour is modelled by an oracle `Nat → CallResult` giving, for
each call attempt, either a response object (with an optional `text`
attribute) or a raised exception carrying its string representation.
Machine-level effects (`time.sleep`, the number of `model.generate_content`
invocations, reaching the dead fallback return after the retry loop) are
recorded as explicit trace components of the result so that claims about
them can be stated.
-/

namespace CloudArchitect

/-- Embedding of Python `pat in s` (substring containment) on char lists. -/
def containsChars (l pat : List Char) : Bool := decide (pat <:+: l)

/-- Embedding of Python `pat in s` for strings. -/
def strContainsSub (s pat : String) : Bool := containsChars s.data pat.data

/-- Embedding of Python `s.lower()` (character-wise lowering). -/
def pyLower (s : String) : String := ⟨s.data.map Char.toLower⟩

/-- Embedding of Python `s.strip()` (drop leading and trailing whitespace). -/
def pyStrip (s : String) : String :=
  ⟨((s.data.dropWhile Char.isWhitespace).reverse.dropWhile Char.isWhitespace).reverse⟩

/-- One behaviour of the external call `model.generate_content(prompt)`:
either a response object whose `text` attribute is absent/`None` (`none`)
or a string, or a raised exception with its string representation. -/
inductive CallResult where
  | response (text : Option String)
  | raise (msg : String)

/-- Process-level configuration together with the behaviour of the
external model: `DEMO_MODE`, whether `model` is non-`None` (an API key was
configured), and the oracle giving the result of the k-th
`model.generate_content` call of one `_generate_with_retry` invocation. -/
structure Env where
  DEMO_MODE : Bool
  modelConfigured : Bool
  oracle : Nat → CallResult

/-- The 4-tuple `(success, text, error, rate_limited)` returned by
`_generate_with_retry`, as a tagged outcome: every return site of the
Python function has either the shape `(True, text, None, False)` or the
shape `(False, None, message, rate_limited)`. -/
inductive Outcome where
  | success (text : String)
  | failure (message : String) (isRateLimited : Bool)
deriving DecidableEq

/-- Result of `_generate_with_retry` together with an execution trace:
the number of `model.generate_content` calls made, the successive delays
passed to `time.sleep`, and whether the dead fallback return after the
`while` loop was executed. -/
structure RetryResult where
  outcome : Outcome
  calls : Nat
  sleeps : List Nat
  fallback : Bool
deriving DecidableEq

/-- The error-message prefix used at line 139/142 of `app.py`
(`f"Error generating architecture recommendation: {msg}"`). -/
def genErrorMsg (msg : String) : String :=
  "Error generating architecture recommendation: " ++ msg

/-- Line 132 of `app.py`: the rate-limit heuristic applied to the
lowercased exception text. -/
def is_rate (msg : String) : Bool :=
  let lower := pyLower msg
  (["429", "rate", "quota", "too many requests"]).any fun x => strContainsSub lower x

/-- The canned sample recommendation returned in demo mode
(lines 46-113 of `app.py`; the triple-quoted literal begins and ends with
a newline). -/
def demo_response : String :=
  "\n# Google Cloud Architecture Recommendation\n\n" ++
  "## Recommended Services\n" ++
  "- **Cloud Run**: Serverless container platform for your SaaS application\n" ++
  "- **Cloud SQL (PostgreSQL)**: Managed relational database with high availability\n" ++
  "- **Cloud Storage**: Object storage for file uploads and static assets\n" ++
  "- **Cloud Pub/Sub**: Message queue for email notifications and async tasks\n" ++
  "- **Cloud CDN**: Content delivery network for global performance\n" ++
  "- **Identity Platform**: Authentication and user management with RBAC\n\n" ++
  "## Architecture Overview\n" ++
  "```\n" ++
  "Internet → Cloud CDN → Cloud Load Balancer\n" ++
  "                          ↓\n" ++
  "                    Cloud Run (Auto-scaling)\n" ++
  "                          ↓\n" ++
  "        ┌─────────────────┼─────────────────┐\n" ++
  "        ↓                 ↓                 ↓\n" ++
  "    Cloud SQL       Cloud Storage      Pub/Sub\n" ++
  "    (Primary DB)    (File Storage)   (Async Tasks)\n" ++
  "```\n\n" ++
  "## Scalability Considerations\n" ++
  "1. **Auto-scaling**: Cloud Run scales 0→N based on traffic (handles work-hour spikes)\n" ++
  "2. **Read replicas**: Add Cloud SQL read replicas for query performance\n" ++
  "3. **Connection pooling**: Use Cloud SQL Proxy with connection limits\n" ++
  "4. **Caching**: Implement Cloud Memorystore (Redis) for session/data caching\n" ++
  "5. **Multi-region**: Deploy in multiple regions for global users\n\n" ++
  "## Cost Optimization\n" ++
  "1. **Pay-per-use**: Cloud Run charges only for actual request time\n" ++
  "2. **Right-sizing**: Start with min instances = 0, scale based on actual load\n" ++
  "3. **Storage lifecycle**: Move old files to Coldline/Archive storage classes\n" ++
  "4. **Committed use**: Purchase 1-year commits for predictable workloads\n" ++
  "5. **Budget alerts**: Set up billing alerts at 50%, 80%, 100% thresholds\n\n" ++
  "## Security Recommendations\n" ++
  "1. **VPC**: Run Cloud Run in VPC with private Cloud SQL connection\n" ++
  "2. **IAM**: Use service accounts with least-privilege principles\n" ++
  "3. **Identity Platform**: Built-in GDPR compliance features\n" ++
  "4. **Encryption**: Enable customer-managed encryption keys (CMEK)\n" ++
  "5. **Audit logs**: Enable Cloud Audit Logs for compliance tracking\n" ++
  "6. **WAF**: Use Cloud Armor for DDoS protection and rate limiting\n\n" ++
  "## Deployment Strategy\n" ++
  "1. **CI/CD Pipeline**:\n" ++
  "   - Cloud Build for automated builds on git push\n" ++
  "   - Separate dev/staging/prod environments\n" ++
  "   - Blue-green deployments with traffic splitting\n" ++
  "   \n" ++
  "2. **Infrastructure as Code**:\n" ++
  "   - Terraform or Cloud Deployment Manager\n" ++
  "   - Version control all infrastructure configs\n\n" ++
  "3. **Monitoring**:\n" ++
  "   - Cloud Monitoring for metrics and alerts\n" ++
  "   - Cloud Logging for centralized logs\n" ++
  "   - Error Reporting for exception tracking\n\n" ++
  "## GDPR Compliance\n" ++
  "- Data residency: Deploy in EU regions (europe-west1)\n" ++
  "- Identity Platform: Built-in consent management\n" ++
  "- Cloud DLP: Automatic PII detection and redaction\n" ++
  "- Audit logs: 400-day retention for compliance\n\n" ++
  "**Estimated Monthly Cost**: $500-2000 for 100k MAU (varies with actual usage patterns)\n"

/-- The retry loop of `_generate_with_retry` (lines 119-142 of `app.py`).
`fuel` counts the remaining iterations permitted by the loop condition
`attempt <= max_retries` (so it starts at `max_retries + 1` and the
`fuel = 0` case is the fallback return after the loop, marked by
`fallback := true`). `sleeps` accumulates the backoff delays and
`last_error` carries the Python variable of the same name. -/
def retryAux (oracle : Nat → CallResult) (max_retries : Nat) :
    Nat → Nat → List Nat → Option String → RetryResult
  | 0, attempt, sleeps, last_error =>
      ⟨.failure (genErrorMsg (last_error.getD "Unknown error")) false, attempt, sleeps, true⟩
  | fuel + 1, attempt, sleeps, _ =>
      match oracle attempt with
      | .response text =>
          match text with
          | some t =>
              if t = "" then
                ⟨.failure "No response generated from Gemini API." false, attempt + 1, sleeps, false⟩
              else
                ⟨.success t, attempt + 1, sleeps, false⟩
          | none =>
              ⟨.failure "No response generated from Gemini API." false, attempt + 1, sleeps, false⟩
      | .raise msg =>
          if is_rate msg && decide (attempt < max_retries) then
            retryAux oracle max_retries fuel (attempt + 1) (sleeps ++ [2 ^ attempt]) (some msg)
          else
            ⟨.failure (genErrorMsg msg) (is_rate msg), attempt + 1, sleeps, false⟩

/-- `_generate_with_retry(prompt, max_retries)` (lines 39-142 of `app.py`).
The prompt is not inspected by the embedding (the oracle determines the
external behaviour), but it is threaded through for fidelity. -/
def generate_with_retry (env : Env) (_prompt : String) (max_retries : Nat) : RetryResult :=
  if env.DEMO_MODE then
    ⟨.success demo_response, 0, [], false⟩
  else if !env.modelConfigured then
    ⟨.failure "Gemini API is not configured. Please check your API key." false, 0, [], false⟩
  else
    retryAux env.oracle max_retries (max_retries + 1) 0 [] none

/-- The `ARCHITECTURE_PROMPT_TEMPLATE` of `app.py` with the single
`{project_description}` substitution applied (line 156:
`ARCHITECTURE_PROMPT_TEMPLATE.format(project_description=...)`). -/
def architecture_prompt (project_description : String) : String :=
  "\nYou are an expert Google Cloud Architect. Analyze the following software project description and provide a comprehensive Google Cloud architecture recommendation.\n\nProject Description: " ++
  project_description ++
  "\n\nPlease provide:\n1. Recommended Google Cloud services and their specific configurations\n2. Architecture diagram description or component relationships\n3. Scalability considerations and best practices\n4. Cost optimization suggestions\n5. Security recommendations\n6. Deployment strategy\n\nFocus on practical, actionable recommendations that follow Google Cloud best practices. Structure your response clearly with headings and bullet points for easy reading.\n"

/-- Line 157 of `app.py`: the 4-tuple of `_generate_with_retry` is
destructured as `success, text, error, _`, discarding the rate-limit
flag; the remaining triple `(success, text, error)` is returned. -/
def outcome_to_triple : Outcome → Bool × Option String × Option String
  | .success t => (true, some t, none)
  | .failure m _ => (false, none, some m)

/-- `generate_architecture_recommendation` (lines 145-158 of `app.py`).
The first component is the source function's return value
`(success, response, error)`; the trailing components expose the
call/sleep trace of the underlying `_generate_with_retry` invocation. -/
def generate_architecture_recommendation (env : Env) (project_description : String) :
    (Bool × Option String × Option String) × Nat × List Nat :=
  let r := generate_with_retry env (architecture_prompt project_description) 2
  (outcome_to_triple r.outcome, r.calls, r.sleeps)

/-- A JSON value, as far as the `/generate` endpoint can observe one. -/
inductive JVal where
  | jstr (s : String)
  | jnum (n : Int)
  | jbool (b : Bool)
  | jnull
  | jarr (elems : List JVal)

/-- Whether a JSON value is a string (only strings have `.strip()`). -/
def JVal.isStr : JVal → Bool
  | .jstr _ => true
  | _ => false

/-- An HTTP request to `/generate`: whether `request.is_json` holds, and
the JSON object returned by `request.get_json()` as an association list
(`none` models a body that parses to a falsy/absent value, so that
`not data` holds). -/
structure HttpRequest where
  is_json : Bool
  json : Option (List (String × JVal))

/-- The observable part of a Flask response from `/generate`: the HTTP
status code, the `status` and `error`/`response` fields of the JSON body,
and the optional `Retry-After` header. -/
structure HttpResponse where
  status : Nat
  body_status : String
  body_error : Option String
  body_response : Option String
  retry_after : Option String
deriving DecidableEq

/-- A 400 validation response (`{'status': 'error', 'error': m}`). -/
def err400 (m : String) : HttpResponse := ⟨400, "error", some m, none, none⟩

/-- The catch-all handler's response (lines 254-261 of `app.py`). -/
def unexpectedErrorResponse : HttpResponse :=
  ⟨500, "error", some "An unexpected error occurred. Please try again.", none, none⟩

/-- The generic 500 body for configuration errors (lines 236-240). -/
def configErrorResponse : HttpResponse :=
  ⟨500, "error", some "Service configuration error. Please try again later.", none, none⟩

/-- The generic 429 body with its `Retry-After: 60` header (lines 241-247). -/
def rateLimitedResponse : HttpResponse :=
  ⟨429, "error",
    some "Service temporarily unavailable due to high demand. Please try again in a few minutes.",
    none, some "60"⟩

/-- The generic 503 retry-later body (lines 248-252). -/
def upstreamErrorResponse : HttpResponse :=
  ⟨503, "error", some "Unable to generate architecture recommendation. Please try again.", none, none⟩

/-- Lines 236-252 of `app.py`: sub-classification of a failure by its
error-message text. -/
def classify_failure (error_message : String) : HttpResponse :=
  if strContainsSub error_message "API key" then
    configErrorResponse
  else if strContainsSub (pyLower error_message) "quota" ||
      strContainsSub (pyLower error_message) "rate" ||
      strContainsSub error_message "429" then
    rateLimitedResponse
  else
    upstreamErrorResponse

/-- Lines 229-252 of `app.py`: mapping the `(success, response_text,
error_message)` triple to a response. A failure with `error_message =
None` would raise inside the handler's `try` (the `in` test on `None`)
and fall to the catch-all, hence `unexpectedErrorResponse`. -/
def respond_to_result (success : Bool) (response_text error_message : Option String) :
    HttpResponse :=
  if success then
    ⟨200, "success", none, response_text, none⟩
  else
    match error_message with
    | some m => classify_failure m
    | none => unexpectedErrorResponse

/-- The response of `/generate` as a function of the generation outcome:
the composition of the flag-discarding destructuring at line 157 with the
result mapping at lines 229-252. -/
def respond_to_outcome (o : Outcome) : HttpResponse :=
  respond_to_result (outcome_to_triple o).1 (outcome_to_triple o).2.1 (outcome_to_triple o).2.2

/-- The response of `/generate` together with an execution trace: whether
`generate_architecture_recommendation` was invoked, how many external
model calls were made, and which backoff sleeps occurred. -/
structure EndpointResult where
  resp : HttpResponse
  generator_called : Bool
  model_calls : Nat
  sleeps : List Nat
deriving DecidableEq

/-- The `/generate` endpoint (lines 171-261 of `app.py`): the validation
sequence, delegation to `generate_architecture_recommendation`, and the
result mapping. A non-string `prompt` value makes `data['prompt'].strip()`
raise `AttributeError`, which the catch-all converts to the generic 500
response. -/
def generate (env : Env) (req : HttpRequest) : EndpointResult :=
  if !req.is_json then
    ⟨err400 "Request must be JSON format", false, 0, []⟩
  else
    match req.json with
    | none => ⟨err400 "Missing required field: prompt", false, 0, []⟩
    | some data =>
      if data.isEmpty then
        ⟨err400 "Missing required field: prompt", false, 0, []⟩
      else
        match List.lookup "prompt" data with
        | none => ⟨err400 "Missing required field: prompt", false, 0, []⟩
        | some (.jstr s) =>
          let project_description := pyStrip s
          if project_description = "" then
            ⟨err400 "Project description cannot be empty", false, 0, []⟩
          else if project_description.length < 10 then
            ⟨err400 "Project description must be at least 10 characters long", false, 0, []⟩
          else if project_description.length > 5000 then
            ⟨err400 "Project description must be less than 5000 characters", false, 0, []⟩
          else
            let gar := generate_architecture_recommendation env project_description
            ⟨respond_to_result gar.1.1 gar.1.2.1 gar.1.2.2, true, gar.2.1, gar.2.2⟩
        | some _ => ⟨unexpectedErrorResponse, false, 0, []⟩

/-- The substring condition of the claims: the exception text contains
(case-insensitively) one of `"429"`, `"rate"`, `"quota"`,
`"too many requests"`. -/
def rateLimitText (m : String) : Bool :=
  strContainsSub (pyLower m) "429" || strContainsSub (pyLower m) "rate" ||
    strContainsSub (pyLower m) "quota" || strContainsSub (pyLower m) "too many requests"

/-- The narrower substring condition the endpoint's own 429 branch can
recognise after prefixing: `"rate"` or `"quota"` case-insensitively, or
the (caseless) `"429"`. -/
def endpointRateText (m : String) : Bool :=
  strContainsSub (pyLower m) "rate" || strContainsSub (pyLower m) "quota" ||
    strContainsSub m "429"

/-- Whether a string begins with another (used to state what the demo
response text starts with). -/
def startsWithStr (s pat : String) : Bool := decide (pat.data <+: s.data)


/-! ## General lemmas about the string embedding -/

theorem containsChars_false_iff {l pat : List Char} :
    containsChars l pat = false ↔ ¬ pat <:+: l := by
  simp [containsChars]

theorem containsChars_true_iff {l pat : List Char} :
    containsChars l pat = true ↔ pat <:+: l := by
  simp [containsChars]

theorem sublistAppendCases {a b pat : List Char} (h : pat <:+: a ++ b) :
    pat <:+: a ∨ pat <:+: b ∨
      ∃ k, 0 < k ∧ k < pat.length ∧ pat.take k <:+ a ∧ pat.drop k <+: b := by
  obtain ⟨s, t, e⟩ := h
  rcases List.append_eq_append_iff.1 e with ⟨x, hx1, _⟩ | ⟨y, hy1, hy2⟩
  · exact Or.inl ⟨s, x, hx1.symm⟩
  · rcases List.append_eq_append_iff.1 hy1 with ⟨u, hu1, hu2⟩ | ⟨w, _, hw2⟩
    · rcases eq_or_ne u [] with rfl | hune
      · refine Or.inr (Or.inl ⟨[], t, ?_⟩)
        have hpy : pat = y := by simpa using hu2
        rw [List.nil_append, hpy]
        exact hy2.symm
      · rcases eq_or_ne y [] with rfl | hyne
        · refine Or.inl ⟨s, [], ?_⟩
          have hpu : pat = u := by simpa using hu2
          rw [List.append_nil, hpu]
          exact hu1.symm
        · refine Or.inr (Or.inr ⟨u.length, List.length_pos.2 hune, ?_, ?_, ?_⟩)
          · rw [hu2, List.length_append]
            have := List.length_pos.2 hyne
            omega
          · rw [hu2, List.take_left]
            exact ⟨s, hu1.symm⟩
          · rw [hu2, List.drop_left]
            exact ⟨t, hy2.symm⟩
    · refine Or.inr (Or.inl ⟨w, t, ?_⟩)
      rw [hy2, hw2]

theorem containsChars_append_false {a b pat : List Char}
    (ha : containsChars a pat = false) (hb : containsChars b pat = false)
    (hspan : ∀ k, k < pat.length → 0 < k → ¬ pat.take k <:+ a) :
    containsChars (a ++ b) pat = false := by
  rw [containsChars_false_iff] at *
  intro h
  rcases sublistAppendCases h with h1 | h2 | ⟨k, hk0, hk, hsuf, _⟩
  exacts [ha h1, hb h2, hspan k hk hk0 hsuf]

theorem containsChars_append_right {b pat : List Char} (a : List Char)
    (hb : containsChars b pat = true) : containsChars (a ++ b) pat = true := by
  rw [containsChars_true_iff] at *
  obtain ⟨s, t, e⟩ := hb
  exact ⟨a ++ s, t, by rw [← e]; simp⟩

theorem rateLimitText_eq_is_rate (m : String) : rateLimitText m = is_rate m := by
  simp [rateLimitText, is_rate, Bool.or_assoc]

theorem genErrorMsg_data (m : String) :
    (genErrorMsg m).data = "Error generating architecture recommendation: ".data ++ m.data := by
  simp [genErrorMsg, String.data_append]

theorem pyLower_genErrorMsg_data (m : String) :
    (pyLower (genErrorMsg m)).data =
      (pyLower "Error generating architecture recommendation: ").data ++ (pyLower m).data := by
  simp [pyLower, genErrorMsg, String.data_append]

/-! ## Lemmas about substrings of the generator's error message -/

theorem apiKey_not_in_genError (m : String) (hm : strContainsSub m "API key" = false) :
    strContainsSub (genErrorMsg m) "API key" = false := by
  unfold strContainsSub at *
  rw [genErrorMsg_data]
  exact containsChars_append_false (by decide) hm (by decide)

theorem quota_not_in_genError (m : String)
    (hm : strContainsSub (pyLower m) "quota" = false) :
    strContainsSub (pyLower (genErrorMsg m)) "quota" = false := by
  unfold strContainsSub at *
  rw [pyLower_genErrorMsg_data]
  exact containsChars_append_false (by decide) hm (by decide)

theorem rate_not_in_genError (m : String)
    (hm : strContainsSub (pyLower m) "rate" = false) :
    strContainsSub (pyLower (genErrorMsg m)) "rate" = false := by
  unfold strContainsSub at *
  rw [pyLower_genErrorMsg_data]
  exact containsChars_append_false (by decide) hm (by decide)

theorem num429_not_in_str (m : String)
    (hm : strContainsSub (pyLower m) "429" = false) :
    strContainsSub m "429" = false := by
  unfold strContainsSub at *
  rw [containsChars_false_iff] at *
  intro h
  have hmap : ("429".data.map Char.toLower) <:+: (m.data.map Char.toLower) := h.map _
  have heq : "429".data.map Char.toLower = "429".data := by decide
  rw [heq] at hmap
  exact hm hmap

theorem num429_not_in_genError (m : String)
    (hm : strContainsSub (pyLower m) "429" = false) :
    strContainsSub (genErrorMsg m) "429" = false := by
  have h0 := num429_not_in_str m hm
  unfold strContainsSub at *
  rw [genErrorMsg_data]
  exact containsChars_append_false (by decide) h0 (by decide)

theorem in429_genError (m : String) (h : strContainsSub m "429" = true) :
    strContainsSub (genErrorMsg m) "429" = true := by
  unfold strContainsSub at *
  rw [genErrorMsg_data]
  exact containsChars_append_right _ h

theorem inRate_genError (m : String) (h : strContainsSub (pyLower m) "rate" = true) :
    strContainsSub (pyLower (genErrorMsg m)) "rate" = true := by
  unfold strContainsSub at *
  rw [pyLower_genErrorMsg_data]
  exact containsChars_append_right _ h

theorem inQuota_genError (m : String) (h : strContainsSub (pyLower m) "quota" = true) :
    strContainsSub (pyLower (genErrorMsg m)) "quota" = true := by
  unfold strContainsSub at *
  rw [pyLower_genErrorMsg_data]
  exact containsChars_append_right _ h

theorem classify_genError_rateLimited (m : String)
    (hak : strContainsSub m "API key" = false) (h : endpointRateText m = true) :
    classify_failure (genErrorMsg m) = rateLimitedResponse := by
  have h1 := apiKey_not_in_genError m hak
  simp only [endpointRateText, Bool.or_eq_true] at h
  have h2 : (strContainsSub (pyLower (genErrorMsg m)) "quota" ||
      strContainsSub (pyLower (genErrorMsg m)) "rate" ||
      strContainsSub (genErrorMsg m) "429") = true := by
    rcases h with (h | h) | h
    · simp [inRate_genError m h]
    · simp [inQuota_genError m h]
    · simp [in429_genError m h]
  simp [classify_failure, h1, h2]

theorem classify_genError_upstream (m : String)
    (hak : strContainsSub m "API key" = false) (h : rateLimitText m = false) :
    classify_failure (genErrorMsg m) = upstreamErrorResponse := by
  simp only [rateLimitText, Bool.or_eq_false_iff] at h
  obtain ⟨⟨⟨h429, hrate⟩, hquota⟩, _⟩ := h
  simp [classify_failure, apiKey_not_in_genError m hak, quota_not_in_genError m hquota,
    rate_not_in_genError m hrate, num429_not_in_genError m h429]

/-! ## Lemmas about the retry loop and the endpoint pipeline -/

theorem respond_to_outcome_failure (m : String) (b : Bool) :
    respond_to_outcome (.failure m b) = classify_failure m := rfl

theorem respond_to_outcome_success (t : String) :
    respond_to_outcome (.success t) = ⟨200, "success", none, some t, none⟩ := rfl

theorem retryAux_step_retry (oracle : Nat → CallResult) (mr fuel attempt : Nat)
    (sleeps : List Nat) (le : Option String) (msg : String)
    (ho : oracle attempt = .raise msg) (hr : is_rate msg = true) (hlt : attempt < mr) :
    retryAux oracle mr (fuel + 1) attempt sleeps le =
      retryAux oracle mr fuel (attempt + 1) (sleeps ++ [2 ^ attempt]) (some msg) := by
  simp [retryAux, ho, hr, hlt]

theorem retryAux_step_stop (oracle : Nat → CallResult) (mr fuel attempt : Nat)
    (sleeps : List Nat) (le : Option String) (msg : String)
    (ho : oracle attempt = .raise msg) (hstop : is_rate msg = false ∨ ¬ attempt < mr) :
    retryAux oracle mr (fuel + 1) attempt sleeps le =
      ⟨.failure (genErrorMsg msg) (is_rate msg), attempt + 1, sleeps, false⟩ := by
  rcases hstop with h | h <;> simp [retryAux, ho, h]

theorem retry_all_rate_mr2 (oracle : Nat → CallResult) (msgf : Nat → String)
    (ho : ∀ k, oracle k = .raise (msgf k))
    (h0 : is_rate (msgf 0) = true) (h1 : is_rate (msgf 1) = true) :
    retryAux oracle 2 3 0 [] none =
      ⟨.failure (genErrorMsg (msgf 2)) (is_rate (msgf 2)), 3, [1, 2], false⟩ := by
  have e1 : retryAux oracle 2 3 0 [] none = retryAux oracle 2 2 1 [1] (some (msgf 0)) := by
    simpa using retryAux_step_retry oracle 2 2 0 [] none (msgf 0) (ho 0) h0 (by omega)
  have e2 : retryAux oracle 2 2 1 [1] (some (msgf 0)) =
      retryAux oracle 2 1 2 [1, 2] (some (msgf 1)) := by
    simpa using retryAux_step_retry oracle 2 1 1 [1] (some (msgf 0)) (msgf 1) (ho 1) h1 (by omega)
  have e3 : retryAux oracle 2 1 2 [1, 2] (some (msgf 1)) =
      ⟨.failure (genErrorMsg (msgf 2)) (is_rate (msgf 2)), 3, [1, 2], false⟩ := by
    simpa using retryAux_step_stop oracle 2 0 2 [1, 2] (some (msgf 1)) (msgf 2) (ho 2)
      (Or.inr (by omega))
  rw [e1, e2, e3]

theorem retryAux_no_fallback (oracle : Nat → CallResult) (mr : Nat) :
    ∀ fuel attempt sleeps le, attempt + fuel = mr + 1 → 0 < fuel →
      (retryAux oracle mr fuel attempt sleeps le).fallback = false ∧
      (retryAux oracle mr fuel attempt sleeps le).calls ≤ mr + 1 := by
  intro fuel
  induction fuel with
  | zero => intro _ _ _ _ h0; omega
  | succ n ih =>
    intro attempt sleeps le hinv _
    rcases hco : oracle attempt with text | msg
    · rcases text with _ | t
      · refine ⟨by simp [retryAux, hco], by simp [retryAux, hco]; omega⟩
      · by_cases ht : t = "" <;>
          exact ⟨by simp [retryAux, hco, ht], by simp [retryAux, hco, ht]; omega⟩
    · by_cases hcond : (is_rate msg && decide (attempt < mr)) = true
      · have hlt : attempt < mr := by
          have h2 := (Bool.and_eq_true _ _).mp hcond
          exact of_decide_eq_true h2.2
        have hstep : retryAux oracle mr (n + 1) attempt sleeps le =
            retryAux oracle mr n (attempt + 1) (sleeps ++ [2 ^ attempt]) (some msg) := by
          simp [retryAux, hco, hcond]
        rw [hstep]
        exact ih (attempt + 1) _ _ (by omega) (by omega)
      · have hcond' : (is_rate msg && decide (attempt < mr)) = false :=
          Bool.eq_false_iff.2 hcond
        refine ⟨by simp [retryAux, hco, hcond'], by simp [retryAux, hco, hcond']; omega⟩

theorem generate_with_retry_live (oracle : Nat → CallResult) (prompt : String) (mr : Nat) :
    generate_with_retry ⟨false, true, oracle⟩ prompt mr =
      retryAux oracle mr (mr + 1) 0 [] none := by
  simp [generate_with_retry]

theorem generate_valid (env : Env) (data : List (String × JVal)) (s : String)
    (hl : List.lookup "prompt" data = some (JVal.jstr s))
    (h1 : pyStrip s ≠ "") (h2 : 10 ≤ (pyStrip s).length) (h3 : (pyStrip s).length ≤ 5000) :
    generate env ⟨true, some data⟩ =
      ⟨respond_to_outcome (generate_with_retry env (architecture_prompt (pyStrip s)) 2).outcome,
        true,
        (generate_with_retry env (architecture_prompt (pyStrip s)) 2).calls,
        (generate_with_retry env (architecture_prompt (pyStrip s)) 2).sleeps⟩ := by
  cases data with
  | nil => simp at hl
  | cons hd tl =>
    have hlt : ¬ (pyStrip s).length < 10 := by omega
    have hgt : ¬ (pyStrip s).length > 5000 := by omega
    simp [generate, hl, h1, hlt, hgt, generate_architecture_recommendation, respond_to_outcome]


/-! ## Claim theorems -/

/-- Claim C1 (amended). If every call to the external model raises an
exception whose string representation contains (case-insensitively) one of
the substrings listed at line 132 of `app.py`, then `_generate_with_retry`
makes exactly 3 total call attempts (initial + 2 retries) and sleeps
`2 ^ attempt` seconds (1s, then 2s) before the two retries. If moreover
the final attempt's exception text contains `"rate"` or `"quota"`
case-insensitively or the (caseless) substring `"429"`, and does not
contain `"API key"`, the `/generate` endpoint returns status 429 with
header `Retry-After: 60`. The extra conditions are forced by the code:
the endpoint's own classification (line 241) does not look for
`"too many requests"`, and its `"API key"` check (line 236) takes
precedence, so the unamended claim is false (see the counterexample). -/
theorem c1_retry_bound (msgf : Nat → String)
    (hall : ∀ k, rateLimitText (msgf k) = true)
    (s : String) (h1 : pyStrip s ≠ "") (h2 : 10 ≤ (pyStrip s).length)
    (h3 : (pyStrip s).length ≤ 5000) :
    (generate_with_retry ⟨false, true, fun k => .raise (msgf k)⟩
        (architecture_prompt (pyStrip s)) 2).calls = 3 ∧
    (generate_with_retry ⟨false, true, fun k => .raise (msgf k)⟩
        (architecture_prompt (pyStrip s)) 2).sleeps = [1, 2] ∧
    (endpointRateText (msgf 2) = true → strContainsSub (msgf 2) "API key" = false →
      generate ⟨false, true, fun k => .raise (msgf k)⟩
          ⟨true, some [("prompt", JVal.jstr s)]⟩ =
        ⟨rateLimitedResponse, true, 3, [1, 2]⟩) := by
  have hr : ∀ k, is_rate (msgf k) = true := fun k => by
    rw [← rateLimitText_eq_is_rate]
    exact hall k
  have hret := retry_all_rate_mr2 (fun k => .raise (msgf k)) msgf (fun k => rfl) (hr 0) (hr 1)
  have hlive := generate_with_retry_live (fun k => CallResult.raise (msgf k))
    (architecture_prompt (pyStrip s)) 2
  rw [hret] at hlive
  refine ⟨by rw [hlive], by rw [hlive], fun hep hak => ?_⟩
  rw [generate_valid _ [("prompt", JVal.jstr s)] s rfl h1 h2 h3, hlive]
  rw [show (⟨.failure (genErrorMsg (msgf 2)) (is_rate (msgf 2)), 3, [1, 2], false⟩ :
      RetryResult).outcome = .failure (genErrorMsg (msgf 2)) (is_rate (msgf 2)) from rfl,
    respond_to_outcome_failure, classify_genError_rateLimited (msgf 2) hak hep]

/-- Claim C1 witness: a concrete run with every call raising `"429"`. -/
theorem c1_retry_bound_witness :
    rateLimitText "429" = true ∧ endpointRateText "429" = true ∧
    strContainsSub "429" "API key" = false ∧
    pyStrip "A web app for customer orders" ≠ "" ∧
    generate ⟨false, true, fun _ => CallResult.raise "429"⟩
        ⟨true, some [("prompt", JVal.jstr "A web app for customer orders")]⟩ =
      ⟨rateLimitedResponse, true, 3, [1, 2]⟩ :=
  ⟨by decide, by decide, by decide, by decide,
    (c1_retry_bound (fun _ => "429")
      (fun _ => by show rateLimitText "429" = true; decide) "A web app for customer orders"
      (by decide) (by decide) (by decide)).2.2 (by decide) (by decide)⟩

/-- Claim C1 counterexample. The exception text `"Too Many Requests"`
contains (case-insensitively) the listed substring `"too many requests"`,
and the generator indeed makes 3 attempts sleeping 1s and 2s, but the
`/generate` endpoint returns status 503, not 429: the endpoint's
classification at line 241 only looks for `"quota"`, `"rate"`, `"429"`. -/
theorem c1_counterexample :
    rateLimitText "Too Many Requests" = true ∧
    (generate ⟨false, true, fun _ => CallResult.raise "Too Many Requests"⟩
        ⟨true, some [("prompt", JVal.jstr "A web app for customer orders")]⟩).model_calls = 3 ∧
    (generate ⟨false, true, fun _ => CallResult.raise "Too Many Requests"⟩
        ⟨true, some [("prompt", JVal.jstr "A web app for customer orders")]⟩).sleeps = [1, 2] ∧
    (generate ⟨false, true, fun _ => CallResult.raise "Too Many Requests"⟩
        ⟨true, some [("prompt", JVal.jstr "A web app for customer orders")]⟩).resp.status
      = 503 := by
  refine ⟨by decide, by decide, by decide, by decide⟩


/-- Claim C2. Validation short-circuits in the fixed order of lines
184-220 of `app.py`, each failure producing status 400 with the named
message and no call to the generator: non-JSON body; missing key
`prompt` (covering a falsy/absent JSON object and an object without the
key); whitespace-only/empty trimmed value; trimmed length < 10; trimmed
length > 5000. -/
theorem c2_validation_sequence :
    (∀ (env : Env) (j : Option (List (String × JVal))),
      generate env ⟨false, j⟩ = ⟨err400 "Request must be JSON format", false, 0, []⟩) ∧
    (∀ env : Env,
      generate env ⟨true, none⟩ = ⟨err400 "Missing required field: prompt", false, 0, []⟩) ∧
    (∀ (env : Env) (data : List (String × JVal)), List.lookup "prompt" data = none →
      generate env ⟨true, some data⟩ =
        ⟨err400 "Missing required field: prompt", false, 0, []⟩) ∧
    (∀ (env : Env) (data : List (String × JVal)) (s : String),
      List.lookup "prompt" data = some (JVal.jstr s) → pyStrip s = "" →
      generate env ⟨true, some data⟩ =
        ⟨err400 "Project description cannot be empty", false, 0, []⟩) ∧
    (∀ (env : Env) (data : List (String × JVal)) (s : String),
      List.lookup "prompt" data = some (JVal.jstr s) →
      pyStrip s ≠ "" → (pyStrip s).length < 10 →
      generate env ⟨true, some data⟩ =
        ⟨err400 "Project description must be at least 10 characters long", false, 0, []⟩) ∧
    (∀ (env : Env) (data : List (String × JVal)) (s : String),
      List.lookup "prompt" data = some (JVal.jstr s) → (pyStrip s).length > 5000 →
      generate env ⟨true, some data⟩ =
        ⟨err400 "Project description must be less than 5000 characters", false, 0, []⟩) := by
  refine ⟨fun env j => rfl, fun env => rfl, ?_, ?_, ?_, ?_⟩
  · intro env data hl
    cases data with
    | nil => rfl
    | cons hd tl => simp [generate, hl]
  · intro env data s hl he
    cases data with
    | nil => simp at hl
    | cons hd tl => simp [generate, hl, he]
  · intro env data s hl h1 hlen
    cases data with
    | nil => simp at hl
    | cons hd tl => simp [generate, hl, h1, hlen]
  · intro env data s hl hlen
    have h1 : pyStrip s ≠ "" := by
      intro he
      rw [he] at hlen
      simp at hlen
    have h2 : ¬ (pyStrip s).length < 10 := by omega
    cases data with
    | nil => simp at hl
    | cons hd tl => simp [generate, hl, h1, h2, hlen]

/-- Dropping leading whitespace from a run of `'x'` characters is the
identity (used to evaluate the over-long-prompt witness without unfolding
a 5001-element list in the kernel). -/
theorem dropWhile_ws_replicate (n : Nat) :
    (List.replicate n 'x').dropWhile Char.isWhitespace = List.replicate n 'x' := by
  cases n with
  | zero => rfl
  | succ m =>
      rw [List.replicate_succ, List.dropWhile_cons]
      simp [show Char.isWhitespace 'x' = false from by decide, ← List.replicate_succ]

theorem pyStrip_replicate (n : Nat) :
    pyStrip ⟨List.replicate n 'x'⟩ = ⟨List.replicate n 'x'⟩ := by
  unfold pyStrip
  rw [show (⟨List.replicate n 'x'⟩ : String).data = List.replicate n 'x' from rfl,
    dropWhile_ws_replicate, List.reverse_replicate, dropWhile_ws_replicate,
    List.reverse_replicate]

theorem length_replicate_str (n : Nat) :
    (⟨List.replicate n 'x'⟩ : String).length = n := by
  simp [String.length]

/-- Claim C2 witness: one concrete request per validation rule. -/
theorem c2_validation_sequence_witness :
    (generate ⟨false, true, fun _ => CallResult.raise "x"⟩ ⟨false, none⟩ =
      ⟨err400 "Request must be JSON format", false, 0, []⟩) ∧
    (generate ⟨false, true, fun _ => CallResult.raise "x"⟩ ⟨true, none⟩ =
      ⟨err400 "Missing required field: prompt", false, 0, []⟩) ∧
    (List.lookup "prompt" [("other", JVal.jnull)] = none ∧
      generate ⟨false, true, fun _ => CallResult.raise "x"⟩
          ⟨true, some [("other", JVal.jnull)]⟩ =
        ⟨err400 "Missing required field: prompt", false, 0, []⟩) ∧
    (pyStrip "   " = "" ∧
      generate ⟨false, true, fun _ => CallResult.raise "x"⟩
          ⟨true, some [("prompt", JVal.jstr "   ")]⟩ =
        ⟨err400 "Project description cannot be empty", false, 0, []⟩) ∧
    ((pyStrip "short").length < 10 ∧
      generate ⟨false, true, fun _ => CallResult.raise "x"⟩
          ⟨true, some [("prompt", JVal.jstr "short")]⟩ =
        ⟨err400 "Project description must be at least 10 characters long", false, 0, []⟩) ∧
    ((pyStrip ⟨List.replicate 5001 'x'⟩).length > 5000 ∧
      generate ⟨false, true, fun _ => CallResult.raise "x"⟩
          ⟨true, some [("prompt", JVal.jstr ⟨List.replicate 5001 'x'⟩)]⟩ =
        ⟨err400 "Project description must be less than 5000 characters", false, 0, []⟩) :=
  ⟨c2_validation_sequence.1 _ none,
    c2_validation_sequence.2.1 _,
    ⟨rfl, c2_validation_sequence.2.2.1 _ _ rfl⟩,
    ⟨by decide, c2_validation_sequence.2.2.2.1 _ _ "   " rfl (by decide)⟩,
    ⟨by decide, c2_validation_sequence.2.2.2.2.1 _ _ "short" rfl (by decide) (by decide)⟩,
    ⟨by rw [pyStrip_replicate, length_replicate_str]; omega,
      c2_validation_sequence.2.2.2.2.2 _ _ ⟨List.replicate 5001 'x'⟩ rfl
        (by rw [pyStrip_replicate, length_replicate_str]; omega)⟩⟩

/-- Claim C3. Every failure outcome is sub-classified by its message text
alone (lines 236-252 of `app.py`): `"API key"` gives the generic 500
configuration-error body; otherwise `"quota"`/`"rate"` case-insensitively
or `"429"` gives the generic 429 body with the `Retry-After: 60` header;
anything else gives the generic 503 body. The response is always one of
these three fixed generic bodies, so the original error text is never
echoed. -/
theorem c3_failure_classification (m : String) (b : Bool) :
    (strContainsSub m "API key" = true →
      respond_to_outcome (.failure m b) = configErrorResponse) ∧
    (strContainsSub m "API key" = false →
      (strContainsSub (pyLower m) "quota" || strContainsSub (pyLower m) "rate" ||
        strContainsSub m "429") = true →
      respond_to_outcome (.failure m b) = rateLimitedResponse) ∧
    (strContainsSub m "API key" = false →
      (strContainsSub (pyLower m) "quota" || strContainsSub (pyLower m) "rate" ||
        strContainsSub m "429") = false →
      respond_to_outcome (.failure m b) = upstreamErrorResponse) ∧
    (respond_to_outcome (.failure m b) = configErrorResponse ∨
      respond_to_outcome (.failure m b) = rateLimitedResponse ∨
      respond_to_outcome (.failure m b) = upstreamErrorResponse) := by
  rw [respond_to_outcome_failure]
  refine ⟨fun h => by simp [classify_failure, h],
    fun h h2 => by simp [classify_failure, h, h2],
    fun h h2 => by simp [classify_failure, h, h2], ?_⟩
  by_cases hA : strContainsSub m "API key" = true
  · exact Or.inl (by simp [classify_failure, hA])
  · have hA' : strContainsSub m "API key" = false := Bool.eq_false_iff.2 hA
    by_cases hB : (strContainsSub (pyLower m) "quota" || strContainsSub (pyLower m) "rate" ||
        strContainsSub m "429") = true
    · exact Or.inr (Or.inl (by simp [classify_failure, hA', hB]))
    · have hB' := Bool.eq_false_iff.2 hB
      exact Or.inr (Or.inr (by simp [classify_failure, hA', hB']))

/-- Claim C3 witness: the three classification branches at concrete
messages. -/
theorem c3_failure_classification_witness :
    (strContainsSub "Invalid API key" "API key" = true ∧
      respond_to_outcome (.failure "Invalid API key" false) = configErrorResponse) ∧
    (strContainsSub "quota exceeded" "API key" = false ∧
      respond_to_outcome (.failure "quota exceeded" true) = rateLimitedResponse) ∧
    (respond_to_outcome (.failure "network down" false) = upstreamErrorResponse) :=
  ⟨⟨by decide, (c3_failure_classification "Invalid API key" false).1 (by decide)⟩,
    ⟨by decide, (c3_failure_classification "quota exceeded" true).2.1 (by decide) (by decide)⟩,
    (c3_failure_classification "network down" false).2.2.1 (by decide) (by decide)⟩

/-- Claim C4 (amended). A non-rate-limit exception on the first call gives
exactly 1 call attempt, no sleep, and the failure outcome
`("Error generating architecture recommendation: " ++ msg, isRateLimited
= false)`; if moreover the exception text does not contain `"API key"`,
the endpoint returns status 503. The `"API key"` exclusion is forced by
the code: the endpoint's check at line 236 turns such messages into a 500
response (see the counterexample). -/
theorem c4_no_retry (msg : String) (oracle : Nat → CallResult)
    (ho : oracle 0 = .raise msg) (hnr : rateLimitText msg = false)
    (data : List (String × JVal)) (s : String)
    (hl : List.lookup "prompt" data = some (JVal.jstr s))
    (h1 : pyStrip s ≠ "") (h2 : 10 ≤ (pyStrip s).length) (h3 : (pyStrip s).length ≤ 5000) :
    (generate_with_retry ⟨false, true, oracle⟩ (architecture_prompt (pyStrip s)) 2).outcome =
        .failure (genErrorMsg msg) false ∧
    (generate_with_retry ⟨false, true, oracle⟩ (architecture_prompt (pyStrip s)) 2).calls = 1 ∧
    (generate_with_retry ⟨false, true, oracle⟩ (architecture_prompt (pyStrip s)) 2).sleeps
        = [] ∧
    (strContainsSub msg "API key" = false →
      generate ⟨false, true, oracle⟩ ⟨true, some data⟩ =
        ⟨upstreamErrorResponse, true, 1, []⟩) := by
  have hrate : is_rate msg = false := by
    rw [← rateLimitText_eq_is_rate]
    exact hnr
  have hstop : retryAux oracle 2 3 0 [] none =
      ⟨.failure (genErrorMsg msg) (is_rate msg), 1, [], false⟩ := by
    simpa using retryAux_step_stop oracle 2 2 0 [] none msg ho (Or.inl hrate)
  have hlive := generate_with_retry_live oracle (architecture_prompt (pyStrip s)) 2
  rw [hstop, hrate] at hlive
  refine ⟨by rw [hlive], by rw [hlive], by rw [hlive], fun hak => ?_⟩
  rw [generate_valid _ data s hl h1 h2 h3, hlive]
  rw [show (⟨.failure (genErrorMsg msg) false, 1, [], false⟩ : RetryResult).outcome =
      .failure (genErrorMsg msg) false from rfl,
    respond_to_outcome_failure, classify_genError_upstream msg hak hnr]

/-- Claim C4 witness: a concrete network-style error. -/
theorem c4_no_retry_witness :
    rateLimitText "connection reset" = false ∧
    strContainsSub "connection reset" "API key" = false ∧
    generate ⟨false, true, fun _ => CallResult.raise "connection reset"⟩
        ⟨true, some [("prompt", JVal.jstr "A web app for customer orders")]⟩ =
      ⟨upstreamErrorResponse, true, 1, []⟩ :=
  ⟨by decide, by decide,
    (c4_no_retry "connection reset" (fun _ => CallResult.raise "connection reset") rfl
      (by decide) [("prompt", JVal.jstr "A web app for customer orders")]
      "A web app for customer orders" rfl (by decide) (by decide) (by decide)).2.2.2
      (by decide)⟩

/-- Claim C4 counterexample. The exception text `"Invalid API key"`
matches none of the rate-limit substrings, the generator makes exactly 1
call attempt, but the endpoint returns status 500 (the `"API key"` branch
of line 236), not 503 as claimed. -/
theorem c4_counterexample :
    rateLimitText "Invalid API key" = false ∧
    (generate ⟨false, true, fun _ => CallResult.raise "Invalid API key"⟩
        ⟨true, some [("prompt", JVal.jstr "A web app for customer orders")]⟩).model_calls
      = 1 ∧
    (generate ⟨false, true, fun _ => CallResult.raise "Invalid API key"⟩
        ⟨true, some [("prompt", JVal.jstr "A web app for customer orders")]⟩).resp.status
      = 500 := by
  refine ⟨by decide, by decide, by decide⟩

/-- Claim C5. With demo mode off and the model client unconfigured, every
generator invocation immediately returns the configuration failure with
`isRateLimited = false`, makes zero external calls and no sleeps, and the
endpoint (for any valid prompt) returns the generic 500
configuration-error response. -/
theorem c5_unconfigured (oracle : Nat → CallResult) (prompt : String) (mr : Nat) :
    generate_with_retry ⟨false, false, oracle⟩ prompt mr =
      ⟨.failure "Gemini API is not configured. Please check your API key." false, 0, [],
        false⟩ ∧
    (∀ (data : List (String × JVal)) (s : String),
      List.lookup "prompt" data = some (JVal.jstr s) →
      pyStrip s ≠ "" → 10 ≤ (pyStrip s).length → (pyStrip s).length ≤ 5000 →
      generate ⟨false, false, oracle⟩ ⟨true, some data⟩ =
        ⟨configErrorResponse, true, 0, []⟩) := by
  have hcfg : generate_with_retry ⟨false, false, oracle⟩ prompt mr =
      ⟨.failure "Gemini API is not configured. Please check your API key." false, 0, [],
        false⟩ := by
    simp [generate_with_retry]
  refine ⟨hcfg, fun data s hl h1 h2 h3 => ?_⟩
  rw [generate_valid _ data s hl h1 h2 h3]
  have hcfg2 : generate_with_retry ⟨false, false, oracle⟩
      (architecture_prompt (pyStrip s)) 2 =
      ⟨.failure "Gemini API is not configured. Please check your API key." false, 0, [],
        false⟩ := by
    simp [generate_with_retry]
  rw [hcfg2]
  rw [show (⟨.failure "Gemini API is not configured. Please check your API key." false, 0,
      [], false⟩ : RetryResult).outcome =
      .failure "Gemini API is not configured. Please check your API key." false from rfl,
    respond_to_outcome_failure]
  rw [show classify_failure "Gemini API is not configured. Please check your API key." =
      configErrorResponse from by decide]

/-- Claim C5 witness: a concrete unconfigured run. -/
theorem c5_unconfigured_witness :
    generate_with_retry ⟨false, false, fun _ => CallResult.raise "x"⟩ "p" 2 =
      ⟨.failure "Gemini API is not configured. Please check your API key." false, 0, [],
        false⟩ ∧
    generate ⟨false, false, fun _ => CallResult.raise "x"⟩
        ⟨true, some [("prompt", JVal.jstr "A web app for customer orders")]⟩ =
      ⟨configErrorResponse, true, 0, []⟩ :=
  ⟨(c5_unconfigured (fun _ => CallResult.raise "x") "p" 2).1,
    (c5_unconfigured (fun _ => CallResult.raise "x") "p" 2).2
      [("prompt", JVal.jstr "A web app for customer orders")]
      "A web app for customer orders" rfl (by decide) (by decide) (by decide)⟩


/-- Claim C6. For every invocation of `_generate_with_retry` — any demo
flag, configuration, retry budget and external behaviour (responses with
or without text, or raised exceptions) — the result is exactly one
terminal outcome: success or failure. Exceptions of the external call are
values of the oracle and are converted to failure outcomes; the function
itself is total. -/
theorem c6_single_outcome (env : Env) (prompt : String) (mr : Nat) :
    ((∃ t, (generate_with_retry env prompt mr).outcome = .success t) ∨
      ∃ m b, (generate_with_retry env prompt mr).outcome = .failure m b) ∧
    ¬ ((∃ t, (generate_with_retry env prompt mr).outcome = .success t) ∧
      ∃ m b, (generate_with_retry env prompt mr).outcome = .failure m b) := by
  constructor
  · cases h : (generate_with_retry env prompt mr).outcome with
    | success t => exact Or.inl ⟨t, rfl⟩
    | failure m b => exact Or.inr ⟨m, b, rfl⟩
  · rintro ⟨⟨t, ht⟩, m, b, hm⟩
    rw [ht] at hm
    exact Outcome.noConfusion hm

set_option maxRecDepth 16384 in
/-- Claim C7 (amended). When demo mode is on, the generator bypasses the
external call (0 model calls, no sleeps) and returns the identical fixed
canned text as a success, independently of the prompt, the configuration
and the oracle; the endpoint's 200 response carries exactly that text,
which begins with a newline followed by the heading line
`# Google Cloud Architecture Recommendation` (the literal at line 46 of
`app.py` opens with a newline, so the claim's "begins with the heading"
is off by that leading newline — see the counterexample). -/
theorem c7_demo_mode (env : Env) (hd : env.DEMO_MODE = true) (prompt : String) (mr : Nat) :
    generate_with_retry env prompt mr = ⟨.success demo_response, 0, [], false⟩ ∧
    startsWithStr demo_response "\n# Google Cloud Architecture Recommendation" = true ∧
    (∀ (data : List (String × JVal)) (s : String),
      List.lookup "prompt" data = some (JVal.jstr s) →
      pyStrip s ≠ "" → 10 ≤ (pyStrip s).length → (pyStrip s).length ≤ 5000 →
      generate env ⟨true, some data⟩ =
        ⟨⟨200, "success", none, some demo_response, none⟩, true, 0, []⟩) := by
  have hdemo : ∀ p mr2, generate_with_retry env p mr2 =
      ⟨.success demo_response, 0, [], false⟩ := by
    intro p mr2
    simp [generate_with_retry, hd]
  refine ⟨hdemo prompt mr, by decide, fun data s hl h1 h2 h3 => ?_⟩
  rw [generate_valid _ data s hl h1 h2 h3, hdemo]
  rfl

/-- Claim C7 witness: a concrete demo-mode request. -/
theorem c7_demo_mode_witness :
    generate_with_retry ⟨true, false, fun _ => CallResult.raise "x"⟩ "p" 2 =
      ⟨.success demo_response, 0, [], false⟩ ∧
    generate ⟨true, false, fun _ => CallResult.raise "x"⟩
        ⟨true, some [("prompt", JVal.jstr "A web app for customer orders")]⟩ =
      ⟨⟨200, "success", none, some demo_response, none⟩, true, 0, []⟩ :=
  ⟨(c7_demo_mode ⟨true, false, fun _ => CallResult.raise "x"⟩ rfl "p" 2).1,
    (c7_demo_mode ⟨true, false, fun _ => CallResult.raise "x"⟩ rfl "p" 2).2.2
      [("prompt", JVal.jstr "A web app for customer orders")]
      "A web app for customer orders" rfl (by decide) (by decide) (by decide)⟩

set_option maxRecDepth 16384 in
/-- Claim C7 counterexample. The demo-mode 200 response text is exactly
the canned literal, and that literal does not begin with
`"Google Cloud Architecture Recommendation"` (nor with
`"# Google Cloud Architecture Recommendation"`): it starts with a
newline. -/
theorem c7_counterexample :
    (generate ⟨true, false, fun _ => CallResult.raise "x"⟩
        ⟨true, some [("prompt", JVal.jstr "A web app for customer orders")]⟩).resp =
      ⟨200, "success", none, some demo_response, none⟩ ∧
    startsWithStr demo_response "Google Cloud Architecture Recommendation" = false ∧
    startsWithStr demo_response "# Google Cloud Architecture Recommendation" = false := by
  refine ⟨?_, by decide, by decide⟩
  rw [generate_valid ⟨true, false, fun _ => CallResult.raise "x"⟩
    [("prompt", JVal.jstr "A web app for customer orders")] "A web app for customer orders"
    rfl (by decide) (by decide) (by decide)]
  rfl

/-- Claim C8. The `isRateLimited` flag is discarded by the destructuring
at line 157 (`success, text, error, _`), so the `/generate` response —
status, headers and body — is the same for any two failure outcomes with
identical message text and different flag values. -/
theorem c8_flag_discarded (m : String) (b₁ b₂ : Bool) :
    outcome_to_triple (.failure m b₁) = outcome_to_triple (.failure m b₂) ∧
    respond_to_outcome (.failure m b₁) = respond_to_outcome (.failure m b₂) :=
  ⟨rfl, rfl⟩

/-- Claim C9. A JSON body whose `prompt` value is not a string makes
`data['prompt'].strip()` raise `AttributeError`, which the catch-all of
lines 254-261 converts to the generic 500 "An unexpected error occurred"
response, not a 400 validation error; the generator is never invoked. -/
theorem c9_nonstring_prompt (env : Env) (data : List (String × JVal)) (v : JVal)
    (hl : List.lookup "prompt" data = some v) (hv : v.isStr = false) :
    generate env ⟨true, some data⟩ = ⟨unexpectedErrorResponse, false, 0, []⟩ := by
  cases data with
  | nil => simp at hl
  | cons hd tl =>
    cases v with
    | jstr s => simp [JVal.isStr] at hv
    | jnum n => simp [generate, hl]
    | jbool b => simp [generate, hl]
    | jnull => simp [generate, hl]
    | jarr elems => simp [generate, hl]

/-- Claim C9 witness: `prompt` bound to the number 5. -/
theorem c9_nonstring_prompt_witness :
    List.lookup "prompt" [("prompt", JVal.jnum 5)] = some (JVal.jnum 5) ∧
    (JVal.jnum 5).isStr = false ∧
    generate ⟨false, true, fun _ => CallResult.raise "x"⟩
        ⟨true, some [("prompt", JVal.jnum 5)]⟩ =
      ⟨unexpectedErrorResponse, false, 0, []⟩ :=
  ⟨rfl, rfl,
    c9_nonstring_prompt ⟨false, true, fun _ => CallResult.raise "x"⟩
      [("prompt", JVal.jnum 5)] (JVal.jnum 5) rfl rfl⟩

/-- Claim C10. For every retry budget and every external behaviour the
retry loop terminates after at most `max_retries + 1` call attempts and
always returns from inside the loop body: the fallback return after the
loop (lines 141-142 of `app.py`) is never executed. -/
theorem c10_loop_bound (env : Env) (prompt : String) (max_retries : Nat) :
    (generate_with_retry env prompt max_retries).fallback = false ∧
    (generate_with_retry env prompt max_retries).calls ≤ max_retries + 1 := by
  unfold generate_with_retry
  by_cases hd : env.DEMO_MODE
  · simp [hd]
  · by_cases hm : env.modelConfigured
    · simp only [hd, hm, Bool.not_true, if_false, Bool.false_eq_true, if_neg]
      exact retryAux_no_fallback env.oracle max_retries (max_retries + 1) 0 [] none
        (by omega) (by omega)
    · simp [hd, hm]

end CloudArchitect
